import Mathlib

/-!
Verification of the realtime relay in `VoiceRAGAI/app/backend/rtmt.py`.

The relay bridges an Azure Communication Services (ACS) media socket and the
OpenAI realtime socket.  The development below is a shallow embedding of the
relay's message-processing code: JSON documents are modelled by `JVal`, Python
runtime errors by `PyErr`, and each Python function of the `RTMiddleTier`
class is translated into a Lean function of the same name (leading
underscores dropped).  Sends to the two sockets are modelled as explicit
output lists; the pending-tool-call dict is threaded as explicit state.
-/

set_option maxHeartbeats 1000000

namespace RTMT

/-- JSON values as produced by Python's `json.loads`: objects are modelled as
association lists keeping insertion order, which matches the ordered-dict
semantics of Python dicts. -/
inductive JVal where
  | null : JVal
  | bool (b : Bool) : JVal
  | num (n : Int) : JVal
  | str (s : String) : JVal
  | arr (elems : List JVal) : JVal
  | obj (fields : List (String × JVal)) : JVal

mutual

/-- Structural equality of JSON values, modelling Python `==` between
values decoded from JSON. -/
def JVal.beq : JVal → JVal → Bool
  | .null, .null => true
  | .bool a, .bool b => a == b
  | .num a, .num b => a == b
  | .str a, .str b => a == b
  | .arr a, .arr b => JVal.beqList a b
  | .obj a, .obj b => JVal.beqFields a b
  | _, _ => false

def JVal.beqList : List JVal → List JVal → Bool
  | [], [] => true
  | x :: xs, y :: ys => JVal.beq x y && JVal.beqList xs ys
  | _, _ => false

def JVal.beqFields : List (String × JVal) → List (String × JVal) → Bool
  | [], [] => true
  | (k, x) :: xs, (l, y) :: ys => k == l && JVal.beq x y && JVal.beqFields xs ys
  | _, _ => false

end

/-- Python runtime exceptions that the relay code can raise. -/
inductive PyErr where
  | keyError (k : String) : PyErr
  | keyErrorJ (k : JVal) : PyErr
  | typeError : PyErr
  | indexError : PyErr
  | jsonDecodeError : PyErr
  | attributeError : PyErr
  | connectionResetError : PyErr
  | toolError (msg : String) : PyErr

/-- Lookup in an association-list object: `d[k]` success case. -/
def getk : List (String × JVal) → String → Option JVal
  | [], _ => none
  | (k', v) :: fs, k => if k' = k then some v else getk fs k

/-- Python dict assignment `d[k] = v`: replaces the value of an existing key
in place (keeping its position) or appends a new binding. -/
def setk : List (String × JVal) → String → JVal → List (String × JVal)
  | [], k, v => [(k, v)]
  | (k', v') :: fs, k, v => if k' = k then (k', v) :: fs else (k', v') :: setk fs k v

/-- Python subscription `m[k]` with a string key: `KeyError` on a missing key
of an object, `TypeError` when the value is not subscriptable by a string. -/
def subscr (m : JVal) (k : String) : Except PyErr JVal :=
  match m with
  | .obj fs =>
    match getk fs k with
    | some v => .ok v
    | none => .error (.keyError k)
  | _ => .error .typeError

/-- Python membership test `k in m` for an object. -/
def hasKey (m : JVal) (k : String) : Bool :=
  match m with
  | .obj fs => (getk fs k).isSome
  | _ => false

/-- Python `m.get(k, d)` on an object. -/
def getDefault (m : JVal) (k : String) (d : JVal) : JVal :=
  match m with
  | .obj fs => (getk fs k).getD d
  | _ => d

/-- Python equality of a JSON value against a string literal. -/
def JVal.eqStr (v : JVal) (s : String) : Bool :=
  match v with
  | .str t => t == s
  | _ => false

/-- Mutation of a key of an object value (the Python code mutates nested
dicts in place; the enclosing value reflects the mutation). -/
def setIn (m : JVal) (k : String) (v : JVal) : JVal :=
  match m with
  | .obj fs => .obj (setk fs k v)
  | _ => m

/-- `ToolResultDirection` from rtmt.py. -/
inductive ToolResultDirection where
  | TO_SERVER : ToolResultDirection
  | TO_CLIENT : ToolResultDirection
deriving DecidableEq

/-- `ToolResult` from rtmt.py.  The text payload is `None` or a string (the
`json.dumps` serialization branch for non-string payloads is not exercised
by any claim and is not modelled). -/
structure ToolResult where
  text : Option String
  destination : ToolResultDirection

/-- `ToolResult.to_text`. -/
def ToolResult.to_text (r : ToolResult) : String :=
  match r.text with
  | none => ""
  | some s => s

/-- `Tool` from rtmt.py.  `target` models the composition
`tool.target(json.loads(arguments))`: it receives the raw argument string and
may raise (covering both a `json.loads` failure and an exception from the
tool's own action). -/
structure Tool where
  target : String → Except PyErr ToolResult
  schema : JVal

/-- `RTToolCall` from rtmt.py: the values of `item["call_id"]` and
`message["previous_item_id"]` are stored verbatim. -/
structure RTToolCall where
  tool_call_id : JVal
  previous_id : JVal

/-- The pending-call dict `self._tools_pending`: keys are the verbatim
`call_id` JSON values, insertion order is kept. -/
def pendingGet? (p : List (JVal × RTToolCall)) (k : JVal) : Option RTToolCall :=
  match p with
  | [] => none
  | (k', tc) :: rest => if JVal.beq k' k then some tc else pendingGet? rest k

/-- Python `k in self._tools_pending`. -/
def pendingContains (p : List (JVal × RTToolCall)) (k : JVal) : Bool :=
  (pendingGet? p k).isSome

/-- Server-enforced configuration of one `RTMiddleTier` relay (rtmt.py lines
56-76).  `temperature` is stored as an opaque JSON value because the relay
only ever copies it into a message.  `greetingAudio` models the result of
reading `audio/greet-user.pcm` in `greet_user`: `some b64` when the file is
readable (its base64 encoding), `none` for `FileNotFoundError`. -/
structure RTMiddleTier where
  system_message : Option String
  temperature : Option JVal
  max_tokens : Option Int
  disable_audio : Option Bool
  voice_choice : Option String
  tools : List (String × Tool)
  greetingAudio : Option String

/-- `self.tools[name]` where `name` is a JSON value: string keys can match a
registered tool, any other value misses (the registry is keyed by strings). -/
def toolsGet? (ts : List (String × Tool)) (k : JVal) : Option Tool :=
  match k with
  | .str s =>
    match ts with
    | [] => none
    | (n, t) :: rest => if n = s then some t else toolsGet? rest (.str s)
  | _ => none

/-- `Option String` rendered as a JSON value (Python `None` becomes `null`). -/
def optStr : Option String → JVal
  | none => .null
  | some s => .str s

/-- Output of `_process_message_to_client`: the return value (or the raised
exception), the pending dict after the call, and the payloads sent to the two
sockets while it ran (sends that happened before a raise are kept). -/
structure ProcOut where
  updated : Except PyErr (Option JVal)
  pending : List (JVal × RTToolCall)
  toServer : List JVal
  toClient : List JVal

/-- The `response.done` strip loop of rtmt.py lines 159-163:
`for i, output in enumerate(reversed(lst))` with `lst.pop(i)` on items whose
type is "function_call".  CPython's reverse list iterator stores a
descending index into the *live* list and stops once the index leaves the
list; `pop i` uses the enumerate counter and raises `IndexError` when it is
out of range of the current list.  `idx` counts the slots the iterator has
not yet visited (the next yield is `lst.get (idx - 1)`), `i` is the
enumerate counter, `replace` the flag of line 159. -/
def stripLoop : List JVal → Nat → Nat → Bool → Except PyErr (List JVal × Bool)
  | lst, 0, _, replace => .ok (lst, replace)
  | lst, j+1, i, replace =>
    if h : j < lst.length then
      match subscr (lst.get ⟨j, h⟩) "type" with
      | .error e => .error e
      | .ok t =>
        if t.eqStr "function_call" then
          if i < lst.length then
            stripLoop (lst.eraseIdx i) j (i+1) true
          else .error .indexError
        else stripLoop lst j (i+1) replace
    else .ok (lst, replace)

/-- `_process_message_to_client` (rtmt.py lines 89-167). -/
def process_message_to_client (rt : RTMiddleTier) (pending : List (JVal × RTToolCall))
    (message : JVal) : ProcOut :=
  -- message = json.loads(msg.data); updated_message = msg.data;
  -- the `if message is not None` guard fails only when the wire text was "null"
  if JVal.beq message .null then ⟨.ok (some message), pending, [], []⟩
  else
    match subscr message "type" with
    | .error e => ⟨.error e, pending, [], []⟩
    | .ok ty =>
      if ty.eqStr "session.created" then
        match subscr message "session" with
        | .error e => ⟨.error e, pending, [], []⟩
        | .ok session =>
          match session with
          | .obj sfs =>
            let sfs1 := setk sfs "instructions" (.str "")
            let sfs2 := setk sfs1 "tools" (.arr [])
            let sfs3 := setk sfs2 "voice" (optStr rt.voice_choice)
            let sfs4 := setk sfs3 "tool_choice" (.str "none")
            let sfs5 := setk sfs4 "max_response_output_tokens" .null
            ⟨.ok (some (setIn message "session" (.obj sfs5))), pending, [], []⟩
          | _ => ⟨.error .typeError, pending, [], []⟩
      else if ty.eqStr "response.output_item.added" then
        if hasKey message "item" then
          match subscr message "item" with
          | .error e => ⟨.error e, pending, [], []⟩
          | .ok item =>
            match subscr item "type" with
            | .error e => ⟨.error e, pending, [], []⟩
            | .ok it =>
              if it.eqStr "function_call" then ⟨.ok none, pending, [], []⟩
              else ⟨.ok (some message), pending, [], []⟩
        else ⟨.ok (some message), pending, [], []⟩
      else if ty.eqStr "conversation.item.created" then
        if hasKey message "item" then
          match subscr message "item" with
          | .error e => ⟨.error e, pending, [], []⟩
          | .ok item =>
            match subscr item "type" with
            | .error e => ⟨.error e, pending, [], []⟩
            | .ok it =>
              if it.eqStr "function_call" then
                match subscr item "call_id" with
                | .error e => ⟨.error e, pending, [], []⟩
                | .ok cid =>
                  if pendingContains pending cid then ⟨.ok none, pending, [], []⟩
                  else
                    match subscr message "previous_item_id" with
                    | .error e => ⟨.error e, pending, [], []⟩
                    | .ok pid => ⟨.ok none, pending ++ [(cid, ⟨cid, pid⟩)], [], []⟩
              else if it.eqStr "function_call_output" then ⟨.ok none, pending, [], []⟩
              else ⟨.ok (some message), pending, [], []⟩
        else ⟨.ok (some message), pending, [], []⟩
      else if ty.eqStr "response.function_call_arguments.delta" then
        ⟨.ok none, pending, [], []⟩
      else if ty.eqStr "response.function_call_arguments.done" then
        ⟨.ok none, pending, [], []⟩
      else if ty.eqStr "response.output_item.done" then
        if hasKey message "item" then
          match subscr message "item" with
          | .error e => ⟨.error e, pending, [], []⟩
          | .ok item =>
            match subscr item "type" with
            | .error e => ⟨.error e, pending, [], []⟩
            | .ok it =>
              if it.eqStr "function_call" then
                match subscr item "call_id" with
                | .error e => ⟨.error e, pending, [], []⟩
                | .ok cid =>
                  match pendingGet? pending cid with
                  | none => ⟨.error (.keyErrorJ cid), pending, [], []⟩
                  | some tool_call =>
                    match subscr item "name" with
                    | .error e => ⟨.error e, pending, [], []⟩
                    | .ok nameV =>
                      match toolsGet? rt.tools nameV with
                      | none => ⟨.error (.keyErrorJ nameV), pending, [], []⟩
                      | some tool =>
                        match subscr item "arguments" with
                        | .error e => ⟨.error e, pending, [], []⟩
                        | .ok args =>
                          match args with
                          | .str argStr =>
                            match tool.target argStr with
                            | .error e => ⟨.error e, pending, [], []⟩
                            | .ok result =>
                              let outText := if result.destination = .TO_SERVER
                                then result.to_text else ""
                              let serverMsg := JVal.obj
                                [("type", .str "conversation.item.create"),
                                 ("item", .obj [("type", .str "function_call_output"),
                                   ("call_id", cid), ("output", .str outText)])]
                              let clientMsgs := if result.destination = .TO_CLIENT then
                                  [JVal.obj
                                    [("type", .str "extension.middle_tier_tool_response"),
                                     ("previous_item_id", tool_call.previous_id),
                                     ("tool_name", nameV),
                                     ("tool_result", .str result.to_text)]]
                                else []
                              ⟨.ok none, pending, [serverMsg], clientMsgs⟩
                          | _ => ⟨.error .typeError, pending, [], []⟩
              else ⟨.ok (some message), pending, [], []⟩
        else ⟨.ok (some message), pending, [], []⟩
      else if ty.eqStr "response.done" then
        let pending1 := if pending.length > 0 then [] else pending
        let serverMsgs := if pending.length > 0
          then [JVal.obj [("type", .str "response.create")]] else []
        if hasKey message "response" then
          match subscr message "response" with
          | .error e => ⟨.error e, pending1, serverMsgs, []⟩
          | .ok resp =>
            match subscr resp "output" with
            | .error e => ⟨.error e, pending1, serverMsgs, []⟩
            | .ok out =>
              match out with
              | .arr lst =>
                match stripLoop lst lst.length 0 false with
                | .error e => ⟨.error e, pending1, serverMsgs, []⟩
                | .ok (lst2, replace) =>
                  if replace then
                    ⟨.ok (some (setIn message "response" (setIn resp "output" (.arr lst2)))),
                     pending1, serverMsgs, []⟩
                  else ⟨.ok (some message), pending1, serverMsgs, []⟩
              | _ => ⟨.error .typeError, pending1, serverMsgs, []⟩
        else ⟨.ok (some message), pending1, serverMsgs, []⟩
      else ⟨.ok (some message), pending, [], []⟩

/-- The session-policy assignments shared verbatim by
`_process_message_to_server` (rtmt.py lines 178-189) and `update_session`
(lines 299-310): each present override is written onto the session object,
then `tool_choice` and `tools` are recomputed from the registry. -/
def applySessionPolicy (rt : RTMiddleTier) (sfs : List (String × JVal)) :
    List (String × JVal) :=
  let s1 := match rt.system_message with
    | some m => setk sfs "instructions" (.str m)
    | none => sfs
  let s2 := match rt.temperature with
    | some t => setk s1 "temperature" t
    | none => s1
  let s3 := match rt.max_tokens with
    | some n => setk s2 "max_response_output_tokens" (.num n)
    | none => s2
  let s4 := match rt.disable_audio with
    | some b => setk s3 "disable_audio" (.bool b)
    | none => s3
  let s5 := match rt.voice_choice with
    | some v => setk s4 "voice" (.str v)
    | none => s4
  let s6 := setk s5 "tool_choice" (.str (if rt.tools.length > 0 then "auto" else "none"))
  setk s6 "tools" (.arr (rt.tools.map (fun p => p.2.schema)))

/-- `_process_message_to_server` (rtmt.py lines 169-195). -/
def process_message_to_server (rt : RTMiddleTier) (message : JVal) :
    Except PyErr (Option JVal) :=
  if JVal.beq message .null then .ok (some message)
  else
    match subscr message "type" with
    | .error e => .error e
    | .ok ty =>
      if ty.eqStr "session.update" then
        match subscr message "session" with
        | .error e => .error e
        | .ok session =>
          match session with
          | .obj sfs =>
            .ok (some (setIn message "session" (.obj (applySessionPolicy rt sfs))))
          | _ => .error .typeError
      else .ok (some message)

/-- `update_session` (rtmt.py lines 293-310), returning the message after its
in-place mutation. -/
def update_session (rt : RTMiddleTier) (message : JVal) : Except PyErr JVal :=
  if JVal.beq message .null then .ok message
  else
    match subscr message "type" with
    | .error e => .error e
    | .ok ty =>
      if ty.eqStr "session.update" then
        match subscr message "session" with
        | .error e => .error e
        | .ok session =>
          match session with
          | .obj sfs => .ok (setIn message "session" (.obj (applySessionPolicy rt sfs)))
          | _ => .error .typeError
      else .ok message

/-- `update_session_instruction` (rtmt.py lines 218-228): builds the
turn-detection payload, applies `update_session` to it in place, and returns
the (mutated) payload that is then sent to the model socket. -/
def update_session_instruction (rt : RTMiddleTier) : Except PyErr JVal :=
  update_session rt (.obj [("type", .str "session.update"),
    ("session", .obj [("turn_detection", .obj [("type", .str "server_vad")])])])

/-- `greet_user` (rtmt.py lines 230-247): the messages sent to the model
socket — one `input_audio_buffer.append` when the greeting file is readable,
none on `FileNotFoundError` (which is caught and only logged). -/
def greet_user (rt : RTMiddleTier) : List JVal :=
  match rt.greetingAudio with
  | some b64 => [.obj [("type", .str "input_audio_buffer.append"),
      ("event_id", .str "greeting"), ("audio", .str b64)]]
  | none => []

/-- `transmit_openai_audio_to_acs` (rtmt.py lines 197-215): the ACS
audio-data frame built for one audio delta. -/
def transmit_openai_audio_to_acs (gpt_audio_response : JVal) : JVal :=
  .obj [("Kind", .str "AudioData"),
    ("AudioData", .obj [("Data", gpt_audio_response)]),
    ("StopAudio", .null)]

/-- The stop-audio control frame built for `input_audio_buffer.speech_started`
(rtmt.py lines 277-282). -/
def stopAudioPayload : JVal :=
  .obj [("Kind", .str "StopAudio"), ("AudioData", .null), ("StopAudio", .obj [])]

/-- Effects of one iteration of `forward_openai_audio_to_acs` on a TEXT frame
(rtmt.py lines 257-284). -/
structure StepOut where
  pending : List (JVal × RTToolCall)
  toServer : List JVal
  toClient : List JVal
  err : Option PyErr

/-- One TEXT-frame iteration of `forward_openai_audio_to_acs`: run
`_process_message_to_client` (whose return value is then discarded by the
`new_msg = json.loads(msg.data)` on line 261), then dispatch on the raw
message's type with `new_msg.get("type", "")`. -/
def forward_openai_audio_to_acs_step (rt : RTMiddleTier)
    (pending : List (JVal × RTToolCall)) (message : JVal) : StepOut :=
  let po := process_message_to_client rt pending message
  match po.updated with
  | .error e => ⟨po.pending, po.toServer, po.toClient, some e⟩
  | .ok _ =>
    if JVal.beq message .null then ⟨po.pending, po.toServer, po.toClient, none⟩
    else
      let ty := getDefault message "type" (.str "")
      if ty.eqStr "response.audio.delta" then
        let gpt := getDefault message "delta" (.obj [])
        ⟨po.pending, po.toServer, po.toClient ++ [transmit_openai_audio_to_acs gpt], none⟩
      else if ty.eqStr "session.created" then
        match update_session_instruction rt with
        | .error e => ⟨po.pending, po.toServer, po.toClient, some e⟩
        | .ok payload =>
          ⟨po.pending, po.toServer ++ [payload] ++ greet_user rt, po.toClient, none⟩
      else if ty.eqStr "input_audio_buffer.speech_started" then
        ⟨po.pending, po.toServer, po.toClient ++ [stopAudioPayload], none⟩
      else ⟨po.pending, po.toServer, po.toClient, none⟩

/-- Output of running `forward_openai_audio_to_acs` over a list of TEXT
frames: all sends to both sockets in order, the final pending dict, and the
exception (if any) that terminated the loop. -/
structure RunOut where
  pending : List (JVal × RTToolCall)
  toServer : List JVal
  toClient : List JVal
  err : Option PyErr

/-- `forward_openai_audio_to_acs` (rtmt.py lines 249-291) over a list of
TEXT frames received from the model socket: iterations run sequentially and
an uncaught exception ends the loop, keeping the sends made before it. -/
def forward_openai_audio_to_acs (rt : RTMiddleTier)
    (pending : List (JVal × RTToolCall)) : List JVal → RunOut
  | [] => ⟨pending, [], [], none⟩
  | m :: ms =>
    let s := forward_openai_audio_to_acs_step rt pending m
    match s.err with
    | some e => ⟨s.pending, s.toServer, s.toClient, some e⟩
    | none =>
      let r := forward_openai_audio_to_acs rt s.pending ms
      ⟨r.pending, s.toServer ++ r.toServer, s.toClient ++ r.toClient, r.err⟩

/-- A TEXT frame received from ACS: either text that `json.loads` rejects, or
its parsed JSON value. -/
inductive AcsFrame where
  | malformed (s : String) : AcsFrame
  | parsed (v : JVal) : AcsFrame

/-- The `input_audio_buffer.append` payload sent upstream for one ACS audio
frame (rtmt.py lines 331-336). -/
def acsAppend (audio : JVal) : JVal :=
  .obj [("type", .str "input_audio_buffer.append"), ("audio", audio)]

/-- Body of the `try` block in `forward_from_acs_to_openai` (rtmt.py lines
318-338): parse the frame, inspect `kind` via `message.get("kind", "")`, and
produce the messages sent upstream.  A parsed non-object raises: `TypeError`
from `'kind' in message` on numbers, booleans and null, `AttributeError`
from `.get` on strings and arrays. -/
def acs_attempt : AcsFrame → Except PyErr (List JVal)
  | .malformed _ => .error .jsonDecodeError
  | .parsed v =>
    match v with
    | .obj fs =>
      let kind := (getk fs "kind").getD (.str "")
      if kind.eqStr "AudioData" then
        match subscr (.obj fs) "audioData" with
        | .error e => .error e
        | .ok ad =>
          match subscr ad "data" with
          | .error e => .error e
          | .ok audio => .ok [acsAppend audio]
      else .ok []
    | .str _ => .error .attributeError
    | .arr _ => .error .attributeError
    | _ => .error .typeError

/-- One loop iteration with the `except (json.JSONDecodeError, KeyError)`
handler (rtmt.py line 340) applied: those two exception classes are
swallowed (the frame is dropped), anything else propagates. -/
def acs_step (f : AcsFrame) : Except PyErr (List JVal) :=
  match acs_attempt f with
  | .error .jsonDecodeError => .ok []
  | .error (.keyError _) => .ok []
  | .error (.keyErrorJ _) => .ok []
  | r => r

/-- Output of running `forward_from_acs_to_openai` over a list of TEXT
frames. -/
structure AcsRunOut where
  toServer : List JVal
  err : Option PyErr

/-- `forward_from_acs_to_openai` (rtmt.py lines 312-348) over a list of TEXT
frames received from ACS. -/
def forward_from_acs_to_openai : List AcsFrame → AcsRunOut
  | [] => ⟨[], none⟩
  | f :: fs =>
    match acs_step f with
    | .error e => ⟨[], some e⟩
    | .ok out =>
      let r := forward_from_acs_to_openai fs
      ⟨out ++ r.toServer, r.err⟩

/-- The `except ConnectionResetError: pass` handler of `_forward_messages`
(rtmt.py lines 388-393): the fate of an exception escaping the two
forwarding loops — `none` when suppressed, `some e` when it propagates. -/
def forward_messages_catch (e : PyErr) : Option PyErr :=
  match e with
  | .connectionResetError => none
  | e => some e

/-! Protocol message shapes, parameterized by their payloads.  These follow
the realtime API events the relay reads; all dispatch is by key lookup, so
field order is immaterial. -/

/-- A `response.audio.delta` event carrying a base64 audio delta. -/
def deltaEvent (d : String) : JVal :=
  .obj [("type", .str "response.audio.delta"), ("delta", .str d)]

/-- An `input_audio_buffer.speech_started` event. -/
def speechStartedEvent : JVal :=
  .obj [("type", .str "input_audio_buffer.speech_started")]

/-- A `session.created` announcement with the given session fields. -/
def sessionCreatedEvent (sfs : List (String × JVal)) : JVal :=
  .obj [("type", .str "session.created"), ("session", .obj sfs)]

/-- A `session.update` request with the given session fields. -/
def sessionUpdateEvent (sfs : List (String × JVal)) : JVal :=
  .obj [("type", .str "session.update"), ("session", .obj sfs)]

/-- A `conversation.item.created` event announcing a function-call item. -/
def itemCreatedEvent (cid pid : String) : JVal :=
  .obj [("type", .str "conversation.item.created"),
    ("previous_item_id", .str pid),
    ("item", .obj [("type", .str "function_call"), ("call_id", .str cid)])]

/-- A `response.output_item.done` event completing a function-call item. -/
def outputItemDoneEvent (cid nm args : String) : JVal :=
  .obj [("type", .str "response.output_item.done"),
    ("item", .obj [("type", .str "function_call"), ("call_id", .str cid),
      ("name", .str nm), ("arguments", .str args)])]

/-- A `response.done` event whose response payload lists `out` as its output
items. -/
def responseDoneEvent (out : List JVal) : JVal :=
  .obj [("type", .str "response.done"), ("response", .obj [("output", .arr out)])]

/-- A function-call record inside a `response.done` output array. -/
def fcOutputItem (cid : String) : JVal :=
  .obj [("type", .str "function_call"), ("call_id", .str cid)]

/-- A plain message record inside a `response.done` output array. -/
def msgOutputItem : JVal := .obj [("type", .str "message")]

/-- The `conversation.item.create` / `function_call_output` item the relay
sends upstream after invoking a tool (rtmt.py lines 133-140). -/
def toolOutputItem (cid : JVal) (output : String) : JVal :=
  .obj [("type", .str "conversation.item.create"),
    ("item", .obj [("type", .str "function_call_output"),
      ("call_id", cid), ("output", .str output)])]

/-- The `extension.middle_tier_tool_response` message the relay sends to the
client for a TO_CLIENT tool result (rtmt.py lines 144-149). -/
def extensionMsg (pid nameV : JVal) (resultText : String) : JVal :=
  .obj [("type", .str "extension.middle_tier_tool_response"),
    ("previous_item_id", pid), ("tool_name", nameV),
    ("tool_result", .str resultText)]

/-! A model of CPython attribute semantics for the `RTMiddleTier` class,
needed to settle how state is shared between two relay instances.  In
rtmt.py, `tools: dict[str, Tool] = {}` (line 63) and `_tools_pending = {}`
(line 74) are class-body assignments: each dict is created once when the
class statement executes.  `__init__` (lines 77-87) assigns only `endpoint`,
`deployment`, `voice_choice` and `key`/`_token_provider` on the instance;
it never rebinds `tools` or `_tools_pending`, so attribute lookup on any
instance falls back to the class attribute and every instance reaches the
same two dict objects.  The heap below holds dict objects, the class holds
references into it, and an instance holds an optional shadowing reference
(always absent for instances built by `__init__`). -/

/-- Heap of dict objects reachable through `RTMiddleTier` attributes. -/
structure PyHeap where
  pendingCells : List (List (JVal × RTToolCall))
  toolCells : List (List (String × Tool))

/-- References held by the class object, created at class-definition time:
cell 0 of each heap component. -/
def classPendingRef : Nat := 0

/-- Reference to the class-level `tools` dict. -/
def classToolsRef : Nat := 0

/-- Per-instance attribute dict after `__init__`: the fields `__init__`
assigns, plus optional shadowing references for `tools` and
`_tools_pending` (never created by any code path in rtmt.py). -/
structure RTInstance where
  endpoint : String
  deployment : String
  voice_choice : Option String
  tools_ref : Option Nat
  pending_ref : Option Nat

/-- `RTMiddleTier.__init__`: assigns `endpoint`, `deployment` and
`voice_choice` on the instance and nothing else that matters here — in
particular it does not bind `tools` or `_tools_pending`. -/
def RTMiddleTier_init (endpoint deployment : String) (voice : Option String) :
    RTInstance :=
  ⟨endpoint, deployment, voice, none, none⟩

/-- Python attribute resolution for `self._tools_pending`: the instance dict
first, then the class attribute. -/
def resolvePendingRef (inst : RTInstance) : Nat :=
  inst.pending_ref.getD classPendingRef

/-- Python attribute resolution for `self.tools`. -/
def resolveToolsRef (inst : RTInstance) : Nat :=
  inst.tools_ref.getD classToolsRef

/-- The heap as it stands after the class statement ran: one empty pending
dict and one empty tools dict. -/
def initialHeap : PyHeap := ⟨[[]], [[]]⟩

/-- Replace the element at an index of a list, if present. -/
def updateAt {α : Type} : List α → Nat → (α → α) → List α
  | [], _, _ => []
  | x :: xs, 0, f => f x :: xs
  | x :: xs, n+1, f => x :: updateAt xs n f

/-- `self._tools_pending[cid] = RTToolCall(...)` guarded by the
`not in` check of rtmt.py line 114, through instance `inst`. -/
def heapRecordPending (h : PyHeap) (inst : RTInstance) (cid : JVal)
    (tc : RTToolCall) : PyHeap :=
  let f := fun d => if pendingContains d cid then d else d ++ [(cid, tc)]
  { h with pendingCells := updateAt h.pendingCells (resolvePendingRef inst) f }

/-- Reading `self._tools_pending[cid]` through instance `inst`. -/
def heapReadPending (h : PyHeap) (inst : RTInstance) (cid : JVal) :
    Option RTToolCall :=
  pendingGet? ((h.pendingCells.getD (resolvePendingRef inst) [])) cid

/-- Registering a tool (`self.tools[name] = tool`) through instance `inst`. -/
def heapRegisterTool (h : PyHeap) (inst : RTInstance) (nm : String)
    (t : Tool) : PyHeap :=
  let f := fun d => d ++ [(nm, t)]
  { h with toolCells := updateAt h.toolCells (resolveToolsRef inst) f }

/-- Reading `self.tools.get(name)` through instance `inst`. -/
def heapReadTool (h : PyHeap) (inst : RTInstance) (nm : String) : Option Tool :=
  toolsGet? (h.toolCells.getD (resolveToolsRef inst) []) (.str nm)

/-- A demonstration tool whose action succeeds with a TO_SERVER text
result. -/
def demoTool : Tool := ⟨fun _ => .ok ⟨some "res", .TO_SERVER⟩, .null⟩

/-- A relay configuration with no policy overrides and `demoTool` registered
under the name "t". -/
def rtDemo : RTMiddleTier := ⟨none, none, none, none, none, [("t", demoTool)], none⟩

/-- A relay configuration with a voice choice, no tools, and a readable
greeting file whose base64 payload is "R0JM". -/
def rtGreet : RTMiddleTier := ⟨none, none, none, none, some "alloy", [], some "R0JM"⟩

/-- A tool whose action raises. -/
def failTool : Tool := ⟨fun _ => .error (.toolError "boom"), .null⟩

/-- A relay configuration with the raising tool registered under "t". -/
def rtFail : RTMiddleTier := ⟨none, none, none, none, none, [("t", failTool)], none⟩

/-- The pending-call record for call "c1" preceded by item "p0". -/
def tcC1 : RTToolCall := ⟨.str "c1", .str "p0"⟩

/-- The frames claim C9 calls malformed: client text `json.loads` rejects,
or a JSON object addressed as audio whose expected audioData structure is
missing — no `audioData` key, or an `audioData` object without `data`. -/
def malformedAcsFrame (f : AcsFrame) : Prop :=
  (∃ s, f = .malformed s) ∨
  (∃ fs, f = .parsed (.obj fs) ∧
    (getk fs "kind").getD (.str "") = .str "AudioData" ∧
    (getk fs "audioData" = none ∨
     ∃ gs, getk fs "audioData" = some (.obj gs) ∧ getk gs "data" = none))

/-- The well-formed ACS audio frame of the C9 scenario. -/
def validAudioFrame : AcsFrame :=
  .parsed (.obj [("kind", .str "AudioData"),
    ("audioData", .obj [("data", .str "QUJD")])])

/-- A concrete client-supplied session for the C2 scenario, carrying values
the policy must override. -/
def c2ClientSession : List (String × JVal) :=
  [("instructions", .str "client-instr"), ("tool_choice", .str "required"),
   ("tools", .arr [.str "client-tool"])]

/-- The client `session.update` message wrapping `c2ClientSession`. -/
def c2ClientMsg : List (String × JVal) :=
  [("type", .str "session.update"), ("session", .obj c2ClientSession)]

end RTMT

namespace RTMT

/-! Helper lemmas about the dict operations and the forwarding loop. -/

theorem getk_setk (fs : List (String × JVal)) (k k' : String) (v : JVal) :
    getk (setk fs k v) k' = if k = k' then some v else getk fs k' := by
  induction fs with
  | nil => simp [setk, getk]
  | cons hd tl ih =>
    obtain ⟨k1, v1⟩ := hd
    by_cases h1 : k1 = k
    · subst h1
      by_cases h2 : k1 = k'
      · subst h2; simp [setk, getk]
      · simp [setk, getk, h2]
    · by_cases h2 : k1 = k'
      · have hkk : ¬ k = k' := fun h => h1 (h2.trans h.symm)
        have h1k : ¬ k' = k := fun h => h1 (h2.trans h)
        simp [setk, getk, h1, h2, hkk, h1k]
      · simp [setk, getk, h1, h2, ih]

theorem apol_tool_choice (rt : RTMiddleTier) (sfs : List (String × JVal)) :
    getk (applySessionPolicy rt sfs) "tool_choice" =
      some (.str (if rt.tools.length > 0 then "auto" else "none")) := by
  unfold applySessionPolicy
  simp [getk_setk]

theorem apol_tools (rt : RTMiddleTier) (sfs : List (String × JVal)) :
    getk (applySessionPolicy rt sfs) "tools" =
      some (.arr (rt.tools.map (fun p => p.2.schema))) := by
  unfold applySessionPolicy
  simp [getk_setk]

theorem apol_instructions (rt : RTMiddleTier) (sfs : List (String × JVal)) :
    getk (applySessionPolicy rt sfs) "instructions" =
      match rt.system_message with
      | some m => some (.str m)
      | none => getk sfs "instructions" := by
  unfold applySessionPolicy
  cases rt.system_message <;> cases rt.temperature <;> cases rt.max_tokens <;>
    cases rt.disable_audio <;> cases rt.voice_choice <;> simp [getk_setk]

theorem apol_temperature (rt : RTMiddleTier) (sfs : List (String × JVal)) :
    getk (applySessionPolicy rt sfs) "temperature" =
      match rt.temperature with
      | some t => some t
      | none => getk sfs "temperature" := by
  unfold applySessionPolicy
  cases rt.system_message <;> cases rt.temperature <;> cases rt.max_tokens <;>
    cases rt.disable_audio <;> cases rt.voice_choice <;> simp [getk_setk]

theorem apol_max_tokens (rt : RTMiddleTier) (sfs : List (String × JVal)) :
    getk (applySessionPolicy rt sfs) "max_response_output_tokens" =
      match rt.max_tokens with
      | some n => some (.num n)
      | none => getk sfs "max_response_output_tokens" := by
  unfold applySessionPolicy
  cases rt.system_message <;> cases rt.temperature <;> cases rt.max_tokens <;>
    cases rt.disable_audio <;> cases rt.voice_choice <;> simp [getk_setk]

theorem apol_disable_audio (rt : RTMiddleTier) (sfs : List (String × JVal)) :
    getk (applySessionPolicy rt sfs) "disable_audio" =
      match rt.disable_audio with
      | some b => some (.bool b)
      | none => getk sfs "disable_audio" := by
  unfold applySessionPolicy
  cases rt.system_message <;> cases rt.temperature <;> cases rt.max_tokens <;>
    cases rt.disable_audio <;> cases rt.voice_choice <;> simp [getk_setk]

theorem apol_voice (rt : RTMiddleTier) (sfs : List (String × JVal)) :
    getk (applySessionPolicy rt sfs) "voice" =
      match rt.voice_choice with
      | some v => some (.str v)
      | none => getk sfs "voice" := by
  unfold applySessionPolicy
  cases rt.system_message <;> cases rt.temperature <;> cases rt.max_tokens <;>
    cases rt.disable_audio <;> cases rt.voice_choice <;> simp [getk_setk]

theorem forward_append (rt : RTMiddleTier) (p : List (JVal × RTToolCall))
    (xs ys : List JVal)
    (h : (forward_openai_audio_to_acs rt p xs).err = none) :
    forward_openai_audio_to_acs rt p (xs ++ ys) =
      ⟨(forward_openai_audio_to_acs rt
          (forward_openai_audio_to_acs rt p xs).pending ys).pending,
        (forward_openai_audio_to_acs rt p xs).toServer ++
          (forward_openai_audio_to_acs rt
            (forward_openai_audio_to_acs rt p xs).pending ys).toServer,
        (forward_openai_audio_to_acs rt p xs).toClient ++
          (forward_openai_audio_to_acs rt
            (forward_openai_audio_to_acs rt p xs).pending ys).toClient,
        (forward_openai_audio_to_acs rt
          (forward_openai_audio_to_acs rt p xs).pending ys).err⟩ := by
  induction xs generalizing p with
  | nil => simp [forward_openai_audio_to_acs]
  | cons m ms ih =>
    simp only [forward_openai_audio_to_acs, List.cons_append] at h ⊢
    cases hs : (forward_openai_audio_to_acs_step rt p m).err with
    | some e => simp [hs] at h
    | none =>
      simp only [hs, List.append_eq] at h ⊢
      rw [ih _ h]
      simp [List.append_assoc]

theorem speech_started_step (rt : RTMiddleTier) (p : List (JVal × RTToolCall)) :
    forward_openai_audio_to_acs_step rt p speechStartedEvent =
      ⟨p, [], [stopAudioPayload], none⟩ := rfl

end RTMT

namespace RTMT

/-!
Claim theorems.
-/

/-- C2: for every `session.update` message from the client, after
`_process_message_to_server` runs, the forwarded message's session has
`tool_choice` exactly "auto" when the tool registry is non-empty and "none"
otherwise regardless of the client value, its `tools` list is exactly the
registry's schemas, each present policy override (instructions, temperature,
max output tokens, audio flag, voice) replaces the client value, and each
absent one leaves the client value unchanged. -/
theorem C2_session_policy (rt : RTMiddleTier) (fs sfs : List (String × JVal))
    (hty : getk fs "type" = some (.str "session.update"))
    (hsess : getk fs "session" = some (.obj sfs)) :
    process_message_to_server rt (.obj fs) =
      .ok (some (.obj (setk fs "session" (.obj (applySessionPolicy rt sfs))))) ∧
    (rt.tools = [] →
      getk (applySessionPolicy rt sfs) "tool_choice" = some (.str "none")) ∧
    (rt.tools ≠ [] →
      getk (applySessionPolicy rt sfs) "tool_choice" = some (.str "auto")) ∧
    getk (applySessionPolicy rt sfs) "tools" =
      some (.arr (rt.tools.map (fun p => p.2.schema))) ∧
    (∀ m, rt.system_message = some m →
      getk (applySessionPolicy rt sfs) "instructions" = some (.str m)) ∧
    (rt.system_message = none →
      getk (applySessionPolicy rt sfs) "instructions" = getk sfs "instructions") ∧
    (∀ t, rt.temperature = some t →
      getk (applySessionPolicy rt sfs) "temperature" = some t) ∧
    (rt.temperature = none →
      getk (applySessionPolicy rt sfs) "temperature" = getk sfs "temperature") ∧
    (∀ n, rt.max_tokens = some n →
      getk (applySessionPolicy rt sfs) "max_response_output_tokens" = some (.num n)) ∧
    (rt.max_tokens = none →
      getk (applySessionPolicy rt sfs) "max_response_output_tokens" =
        getk sfs "max_response_output_tokens") ∧
    (∀ b, rt.disable_audio = some b →
      getk (applySessionPolicy rt sfs) "disable_audio" = some (.bool b)) ∧
    (rt.disable_audio = none →
      getk (applySessionPolicy rt sfs) "disable_audio" = getk sfs "disable_audio") ∧
    (∀ v, rt.voice_choice = some v →
      getk (applySessionPolicy rt sfs) "voice" = some (.str v)) ∧
    (rt.voice_choice = none →
      getk (applySessionPolicy rt sfs) "voice" = getk sfs "voice") := by
  refine ⟨?_, ?_, ?_, apol_tools rt sfs, ?_, ?_, ?_, ?_, ?_, ?_, ?_, ?_, ?_, ?_⟩
  · simp [process_message_to_server, JVal.beq, subscr, hty, hsess, JVal.eqStr, setIn]
  · intro hnil
    simp [apol_tool_choice, hnil]
  · intro hne
    rcases hl : rt.tools with _ | ⟨a, as⟩
    · exact absurd hl hne
    · simp [apol_tool_choice, hl]
  · intro m hm; simp [apol_instructions, hm]
  · intro hm; simp [apol_instructions, hm]
  · intro t ht; simp [apol_temperature, ht]
  · intro ht; simp [apol_temperature, ht]
  · intro n hn; simp [apol_max_tokens, hn]
  · intro hn; simp [apol_max_tokens, hn]
  · intro b hb; simp [apol_disable_audio, hb]
  · intro hb; simp [apol_disable_audio, hb]
  · intro v hv; simp [apol_voice, hv]
  · intro hv; simp [apol_voice, hv]

/-- Witness for C2: a concrete client `session.update` carrying its own
instructions, tool_choice and tools is rewritten by the policy of `rtDemo`. -/
theorem C2_session_policy_witness :
    process_message_to_server rtDemo (.obj c2ClientMsg) =
      .ok (some (.obj (setk c2ClientMsg "session"
        (.obj (applySessionPolicy rtDemo c2ClientSession))))) :=
  (C2_session_policy rtDemo c2ClientMsg c2ClientSession rfl rfl).1

/-- C6: processing an `input_audio_buffer.speech_started` event emits the
client-facing StopAudio control frame immediately, and that frame precedes —
in the client-visible output — every audio-data frame produced from events
processed after it. -/
theorem C6_stop_audio_precedes (rt : RTMiddleTier) (p : List (JVal × RTToolCall))
    (pre post : List JVal)
    (h : (forward_openai_audio_to_acs rt p pre).err = none) :
    (forward_openai_audio_to_acs rt p (pre ++ speechStartedEvent :: post)).toClient =
      (forward_openai_audio_to_acs rt p pre).toClient ++
        stopAudioPayload ::
          (forward_openai_audio_to_acs rt
            (forward_openai_audio_to_acs rt p pre).pending post).toClient := by
  rw [forward_append rt p pre (speechStartedEvent :: post) h]
  simp [forward_openai_audio_to_acs, speech_started_step]

/-- Witness for C6 at a concrete trace: one delta before the barge-in, one
after. -/
theorem C6_stop_audio_precedes_witness :
    (forward_openai_audio_to_acs rtDemo [] ([deltaEvent "d1"] ++ speechStartedEvent :: [deltaEvent "d2"])).toClient =
      (forward_openai_audio_to_acs rtDemo [] [deltaEvent "d1"]).toClient ++
        stopAudioPayload ::
          (forward_openai_audio_to_acs rtDemo
            (forward_openai_audio_to_acs rtDemo [] [deltaEvent "d1"]).pending
            [deltaEvent "d2"]).toClient :=
  C6_stop_audio_precedes rtDemo [] [deltaEvent "d1"] [deltaEvent "d2"] rfl

/-- C7: audio deltas received in order d1, d2, d3 are forwarded to the
client as audio-data frames in the same order, with no reordering, batching
or drops, and nothing else is sent. -/
theorem C7_delta_order (rt : RTMiddleTier) (p : List (JVal × RTToolCall))
    (d1 d2 d3 : String) :
    forward_openai_audio_to_acs rt p [deltaEvent d1, deltaEvent d2, deltaEvent d3] =
      ⟨p, [],
        [transmit_openai_audio_to_acs (.str d1),
         transmit_openai_audio_to_acs (.str d2),
         transmit_openai_audio_to_acs (.str d3)], none⟩ := rfl

/-- C1 counterexample: after the relay processes the
`conversation.item.created` announcement of call "c1" and then its
`response.output_item.done` counterpart, the pending entry for "c1" is
still in the table — refuting the claim that it no longer exists after the
done event is processed. -/
theorem C1_counterexample :
    (process_message_to_client rtDemo
        ((process_message_to_client rtDemo [] (itemCreatedEvent "c1" "p0")).pending)
        (outputItemDoneEvent "c1" "t" "null")).updated = .ok none ∧
    pendingGet?
      (process_message_to_client rtDemo
        ((process_message_to_client rtDemo [] (itemCreatedEvent "c1" "p0")).pending)
        (outputItemDoneEvent "c1" "t" "null")).pending (.str "c1") = some tcC1 ∧
    pendingGet?
      (process_message_to_client rtDemo
        ((process_message_to_client rtDemo [] (itemCreatedEvent "c1" "p0")).pending)
        (outputItemDoneEvent "c1" "t" "null")).pending (.str "c1") ≠ none := by
  refine ⟨rfl, rfl, ?_⟩
  intro hc
  rw [show pendingGet?
      (process_message_to_client rtDemo
        ((process_message_to_client rtDemo [] (itemCreatedEvent "c1" "p0")).pending)
        (outputItemDoneEvent "c1" "t" "null")).pending (.str "c1") = some tcC1 from rfl] at hc
  exact Option.noConfusion hc

/-- C1 (amended): a pending tool call is recorded when the function-call
`conversation.item.created` event is processed; processing its
`response.output_item.done` counterpart looks it up but leaves the table
unchanged (the entry is not removed); the entry disappears only when a
`response.done` event is processed while the table is non-empty, which
clears the whole table. -/
theorem C1_pending_lifecycle (rt : RTMiddleTier)
    (p1 p2 p3 : List (JVal × RTToolCall))
    (cid pid cid2 nm args : String) (tc : RTToolCall) (tool : Tool)
    (res : ToolResult)
    (hfresh : pendingGet? p1 (.str cid) = none)
    (hpend : pendingGet? p2 (.str cid2) = some tc)
    (htool : toolsGet? rt.tools (.str nm) = some tool)
    (hres : tool.target args = .ok res)
    (hne : p3 ≠ []) :
    process_message_to_client rt p1 (itemCreatedEvent cid pid) =
      ⟨.ok none, p1 ++ [(.str cid, ⟨.str cid, .str pid⟩)], [], []⟩ ∧
    (process_message_to_client rt p2 (outputItemDoneEvent cid2 nm args)).pending = p2 ∧
    (process_message_to_client rt p3 (responseDoneEvent [])).pending = [] := by
  refine ⟨?_, ?_, ?_⟩
  · simp [process_message_to_client, itemCreatedEvent, subscr, getk, hasKey,
      JVal.eqStr, JVal.beq, pendingContains, hfresh]
  · simp [process_message_to_client, outputItemDoneEvent, subscr, getk, hasKey,
      JVal.eqStr, JVal.beq, hpend, htool, hres]
  · have h3 : 0 < p3.length := List.length_pos.mpr hne
    simp [process_message_to_client, responseDoneEvent, subscr, getk, hasKey,
      JVal.eqStr, JVal.beq, stripLoop, h3]

/-- Witness for the amended C1 at concrete inputs: fresh call "c1" recorded,
completion of "c1" leaving the singleton table unchanged, and a
`response.done` clearing the singleton table. -/
theorem C1_pending_lifecycle_witness :
    process_message_to_client rtDemo [] (itemCreatedEvent "c1" "p0") =
      ⟨.ok none, [] ++ [(.str "c1", ⟨.str "c1", .str "p0"⟩)], [], []⟩ ∧
    (process_message_to_client rtDemo [(.str "c1", tcC1)]
      (outputItemDoneEvent "c1" "t" "null")).pending = [(.str "c1", tcC1)] ∧
    (process_message_to_client rtDemo [(.str "c1", tcC1)]
      (responseDoneEvent [])).pending = [] :=
  C1_pending_lifecycle rtDemo [] [(.str "c1", tcC1)] [(.str "c1", tcC1)]
    "c1" "p0" "c1" "t" "null" tcC1 demoTool ⟨some "res", .TO_SERVER⟩
    rfl rfl rfl rfl (List.cons_ne_nil _ _)

/-- C3: when a `response.output_item.done` function-call event is processed
and the tool succeeds, the result is delivered exactly one way: a TO_SERVER
result sends one `function_call_output` item carrying the result text
upstream and nothing to the client; a TO_CLIENT result sends one
`function_call_output` item with empty output upstream plus one
`extension.middle_tier_tool_response` message to the client carrying the
tool name, the result text and the pending call's previous item id. -/
theorem C3_tool_result_delivery (rt : RTMiddleTier)
    (p : List (JVal × RTToolCall)) (cid nm args : String)
    (tc : RTToolCall) (tool : Tool) (res : ToolResult)
    (hpend : pendingGet? p (.str cid) = some tc)
    (htool : toolsGet? rt.tools (.str nm) = some tool)
    (hres : tool.target args = .ok res) :
    (res.destination = .TO_SERVER →
      process_message_to_client rt p (outputItemDoneEvent cid nm args) =
        ⟨.ok none, p, [toolOutputItem (.str cid) res.to_text], []⟩) ∧
    (res.destination = .TO_CLIENT →
      process_message_to_client rt p (outputItemDoneEvent cid nm args) =
        ⟨.ok none, p, [toolOutputItem (.str cid) ""],
          [extensionMsg tc.previous_id (.str nm) res.to_text]⟩) := by
  constructor <;> intro hdest <;>
    simp [process_message_to_client, outputItemDoneEvent, subscr, getk, hasKey,
      JVal.eqStr, JVal.beq, hpend, htool, hres, hdest, toolOutputItem, extensionMsg]

/-- Witness for C3: a concrete TO_SERVER result delivered upstream only. -/
theorem C3_tool_result_delivery_witness :
    process_message_to_client rtDemo [(.str "c1", tcC1)]
        (outputItemDoneEvent "c1" "t" "null") =
      ⟨.ok none, [(.str "c1", tcC1)],
        [toolOutputItem (.str "c1") (ToolResult.to_text ⟨some "res", .TO_SERVER⟩)], []⟩ :=
  (C3_tool_result_delivery rtDemo [(.str "c1", tcC1)] "c1" "t" "null" tcC1
    demoTool ⟨some "res", .TO_SERVER⟩ rfl rfl rfl).1 rfl

/-- C4 counterexample: on `session.created` the active loop sends nothing at
all to the client — the sanitized announcement is computed and then
discarded — refuting the claim that the client receives it.  The model does
receive the turn-detection `session.update` followed by the greeting
append. -/
theorem C4_counterexample :
    (forward_openai_audio_to_acs rtGreet []
      [sessionCreatedEvent [("instructions", .str "secret")]]).toClient = [] ∧
    (forward_openai_audio_to_acs rtGreet []
      [sessionCreatedEvent [("instructions", .str "secret")]]).toServer =
      [sessionUpdateEvent [("turn_detection", .obj [("type", .str "server_vad")]),
          ("voice", .str "alloy"), ("tool_choice", .str "none"), ("tools", .arr [])],
       .obj [("type", .str "input_audio_buffer.append"),
          ("event_id", .str "greeting"), ("audio", .str "R0JM")]] :=
  ⟨rfl, rfl⟩

/-- C4 (amended): when the model announces `session.created`, the client
receives nothing (the sanitized announcement `_process_message_to_client`
builds is discarded by the loop), and the model receives a `session.update`
whose session carries server_vad turn detection with the session policy
applied, followed by an `input_audio_buffer.append` carrying the greeting
audio, provided the greeting file is readable. -/
theorem C4_session_created_behavior (rt : RTMiddleTier)
    (p : List (JVal × RTToolCall)) (sfs : List (String × JVal)) (g : String)
    (hg : rt.greetingAudio = some g) :
    forward_openai_audio_to_acs rt p [sessionCreatedEvent sfs] =
      ⟨p,
        [sessionUpdateEvent (applySessionPolicy rt
            [("turn_detection", .obj [("type", .str "server_vad")])]),
         .obj [("type", .str "input_audio_buffer.append"),
            ("event_id", .str "greeting"), ("audio", .str g)]],
        [], none⟩ := by
  simp [forward_openai_audio_to_acs, forward_openai_audio_to_acs_step,
    process_message_to_client, update_session_instruction, update_session,
    greet_user, sessionCreatedEvent, sessionUpdateEvent, subscr, getk, hasKey,
    JVal.eqStr, JVal.beq, getDefault, setIn, setk, hg]

/-- Witness for the amended C4 at a concrete relay and session payload. -/
theorem C4_session_created_behavior_witness :
    forward_openai_audio_to_acs rtGreet []
        [sessionCreatedEvent [("instructions", .str "secret")]] =
      ⟨[],
        [sessionUpdateEvent (applySessionPolicy rtGreet
            [("turn_detection", .obj [("type", .str "server_vad")])]),
         .obj [("type", .str "input_audio_buffer.append"),
            ("event_id", .str "greeting"), ("audio", .str "R0JM")]],
        [], none⟩ :=
  C4_session_created_behavior rtGreet [] [("instructions", .str "secret")] "R0JM" rfl

/-- C5: evaluation at the failing input.  A `response.done` with one pending
call and output array [function-call record, message record] does clear the
table and send `response.create` upstream (the true half of the claim), but
the strip loop pops the wrong index: the forwarded payload still contains
the function-call record and has lost the message record instead — the
function-call record is not stripped, contradicting the claim (and the
code's own intent expressed by its `replace` bookkeeping). -/
theorem C5_strip_bug_eval :
    process_message_to_client rtDemo [(.str "c1", tcC1)]
        (responseDoneEvent [fcOutputItem "c1", msgOutputItem]) =
      ⟨.ok (some (responseDoneEvent [fcOutputItem "c1"])), [],
        [.obj [("type", .str "response.create")]], []⟩ := rfl

/-- C8 counterexample: a tool whose action raises makes
`_process_message_to_client` raise in turn — no `function_call_output` with
empty or error text is sent upstream, and the model-to-client loop
terminates with the exception — refuting the claim that the failure is
converted into a to-model tool result and the loops continue. -/
theorem C8_counterexample :
    process_message_to_client rtFail [(.str "c1", tcC1)]
        (outputItemDoneEvent "c1" "t" "null") =
      ⟨.error (.toolError "boom"), [(.str "c1", tcC1)], [], []⟩ ∧
    (forward_openai_audio_to_acs rtFail [(.str "c1", tcC1)]
        [outputItemDoneEvent "c1" "t" "null"]).err = some (.toolError "boom") ∧
    (forward_openai_audio_to_acs rtFail [(.str "c1", tcC1)]
        [outputItemDoneEvent "c1" "t" "null"]).toServer = [] :=
  ⟨rfl, rfl, rfl⟩

/-- C8 (amended): an exception raised by a tool's invocable action
propagates out of `_process_message_to_client` with nothing sent to either
socket, terminates the model-to-client forwarding loop, and is not caught
by `_forward_messages`, whose handler suppresses only
`ConnectionResetError`. -/
theorem C8_tool_exception_propagates (rt : RTMiddleTier)
    (p : List (JVal × RTToolCall)) (cid nm args : String)
    (tc : RTToolCall) (tool : Tool) (e : PyErr)
    (hpend : pendingGet? p (.str cid) = some tc)
    (htool : toolsGet? rt.tools (.str nm) = some tool)
    (hres : tool.target args = .error e)
    (hnc : e ≠ PyErr.connectionResetError) :
    process_message_to_client rt p (outputItemDoneEvent cid nm args) =
      ⟨.error e, p, [], []⟩ ∧
    (forward_openai_audio_to_acs rt p [outputItemDoneEvent cid nm args]).err = some e ∧
    forward_messages_catch e = some e := by
  have hproc : process_message_to_client rt p (outputItemDoneEvent cid nm args) =
      ⟨.error e, p, [], []⟩ := by
    simp [process_message_to_client, outputItemDoneEvent, subscr, getk, hasKey,
      JVal.eqStr, JVal.beq, hpend, htool, hres]
  refine ⟨hproc, ?_, ?_⟩
  · simp [forward_openai_audio_to_acs, forward_openai_audio_to_acs_step, hproc]
  · cases e <;> simp [forward_messages_catch] at hnc ⊢

/-- Witness for the amended C8 at a concrete raising tool. -/
theorem C8_tool_exception_propagates_witness :
    process_message_to_client rtFail [(.str "c1", tcC1)]
        (outputItemDoneEvent "c1" "t" "null") =
      ⟨.error (.toolError "boom"), [(.str "c1", tcC1)], [], []⟩ ∧
    (forward_openai_audio_to_acs rtFail [(.str "c1", tcC1)]
        [outputItemDoneEvent "c1" "t" "null"]).err = some (.toolError "boom") ∧
    forward_messages_catch (.toolError "boom") = some (.toolError "boom") :=
  C8_tool_exception_propagates rtFail [(.str "c1", tcC1)] "c1" "t" "null" tcC1
    failTool (.toolError "boom") rfl rfl rfl (by intro h; exact PyErr.noConfusion h)

/-- C9: a malformed client frame — text `json.loads` rejects, or JSON whose
expected audioData structure is missing — is dropped (the caught exception
yields no upstream send and no loop-terminating error), the loop continues,
and a following valid AudioData frame is still forwarded to the model as an
`input_audio_buffer.append` carrying its base64 payload "QUJD". -/
theorem C9_malformed_dropped (f : AcsFrame) (h : malformedAcsFrame f) :
    acs_step f = .ok [] ∧
    forward_from_acs_to_openai [f, validAudioFrame] =
      ⟨[acsAppend (.str "QUJD")], none⟩ := by
  have hstep : acs_step f = .ok [] := by
    rcases h with ⟨s, rfl⟩ | ⟨fs, rfl, hkind, hdata⟩
    · rfl
    · rcases hdata with hnone | ⟨gs, hsome, hnone⟩
      · simp [acs_step, acs_attempt, subscr, hkind, hnone, JVal.eqStr]
      · simp [acs_step, acs_attempt, subscr, hkind, hsome, hnone, JVal.eqStr]
  refine ⟨hstep, ?_⟩
  show forward_from_acs_to_openai (f :: [validAudioFrame]) = _
  simp only [forward_from_acs_to_openai, hstep]
  rfl

/-- Witness for C9: unparseable text followed by the valid frame. -/
theorem C9_malformed_dropped_witness :
    acs_step (.malformed "oops") = .ok [] ∧
    forward_from_acs_to_openai [.malformed "oops", validAudioFrame] =
      ⟨[acsAppend (.str "QUJD")], none⟩ :=
  C9_malformed_dropped (.malformed "oops") (Or.inl ⟨"oops", rfl⟩)

/-- C10 counterexample: two distinct `RTMiddleTier` instances share the
class-level pending dict — recording a pending call through the first
instance changes what the second instance observes, refuting the claimed
per-instance isolation. -/
theorem C10_counterexample :
    heapReadPending initialHeap (RTMiddleTier_init "e2" "d2" (some "alloy"))
        (.str "c") = none ∧
    heapReadPending
        (heapRecordPending initialHeap (RTMiddleTier_init "e1" "d1" none)
          (.str "c") ⟨.str "c", .str "p"⟩)
        (RTMiddleTier_init "e2" "d2" (some "alloy")) (.str "c") =
      some ⟨.str "c", .str "p"⟩ :=
  ⟨rfl, rfl⟩

/-- C10 (amended): `tools` and `_tools_pending` are class attributes of
`RTMiddleTier`; every instance built by `__init__` resolves them to the same
shared dict objects, so a pending call recorded, or a tool registered,
through one instance is observed identically through any other instance. -/
theorem C10_class_state_shared (e1 d1 e2 d2 : String) (v1 v2 : Option String)
    (h : PyHeap) (cid : JVal) (tc : RTToolCall) (cs nm : String) (t : Tool) :
    resolvePendingRef (RTMiddleTier_init e1 d1 v1) =
      resolvePendingRef (RTMiddleTier_init e2 d2 v2) ∧
    resolveToolsRef (RTMiddleTier_init e1 d1 v1) =
      resolveToolsRef (RTMiddleTier_init e2 d2 v2) ∧
    heapReadPending (heapRecordPending h (RTMiddleTier_init e1 d1 v1) cid tc)
        (RTMiddleTier_init e2 d2 v2) cid =
      heapReadPending (heapRecordPending h (RTMiddleTier_init e1 d1 v1) cid tc)
        (RTMiddleTier_init e1 d1 v1) cid ∧
    heapReadPending (heapRecordPending initialHeap (RTMiddleTier_init e1 d1 v1)
        (.str cs) tc) (RTMiddleTier_init e2 d2 v2) (.str cs) = some tc ∧
    heapReadTool (heapRegisterTool initialHeap (RTMiddleTier_init e1 d1 v1) nm t)
        (RTMiddleTier_init e2 d2 v2) nm = some t := by
  refine ⟨rfl, rfl, rfl, ?_, ?_⟩
  · simp [heapReadPending, heapRecordPending, initialHeap, updateAt,
      resolvePendingRef, RTMiddleTier_init, classPendingRef, pendingGet?,
      pendingContains, JVal.beq]
  · simp [heapReadTool, heapRegisterTool, initialHeap, updateAt,
      resolveToolsRef, RTMiddleTier_init, classToolsRef, toolsGet?]

end RTMT
